import Mathlib

/-!
Shallow embedding of the spreadsheet validation engine of the F5 XC
onboarding orchestrator (src/orchestrator.py).  Cell values are modelled
by `Value`, a row by an association list from column name to value, and
`validate_dataframe` mirrors the Python function statement by statement.
Python regular-expression matching (re.match with dollar-anchored
patterns) is modelled by a Brzozowski-derivative matcher over an explicit
regex syntax tree transcribed from the pattern literals in the source.
-/

/-- Python scalar cell values as pandas produces them for this sheet:
strings, booleans, integers, the float NaN of an empty cell, and the
None that a lookup of a nonexistent column returns. -/
inductive Value where
  | vStr (s : String)
  | vBool (b : Bool)
  | vInt (n : Int)
  | vNaN
  | vNone
deriving DecidableEq, Repr

open Value

/-- Model of pandas pd.isna on a scalar: true on NaN and None. -/
def isna : Value → Bool
  | vNaN => true
  | vNone => true
  | _ => false

/-- Model of Python == on the cell values that occur here.  Booleans
equal the integers 0 and 1, NaN equals nothing (not even itself),
None equals only None, and values of unrelated kinds are unequal. -/
def pyEq : Value → Value → Bool
  | vStr s, vStr t => s == t
  | vBool b, vBool c => b == c
  | vInt n, vInt m => n == m
  | vBool b, vInt n => (if b then (1 : Int) else 0) == n
  | vInt n, vBool b => n == (if b then (1 : Int) else 0)
  | vNone, vNone => true
  | _, _ => false

/-- Model of Python truthiness: nonempty strings, true, nonzero
integers and NaN are truthy; None is falsy. -/
def pyTruthy : Value → Bool
  | vStr s => !s.isEmpty
  | vBool b => b
  | vInt n => n != 0
  | vNaN => true
  | vNone => false

/-- Model of Python str() on a cell value. -/
def pyStr : Value → String
  | vStr s => s
  | vBool true => "True"
  | vBool false => "False"
  | vInt n => toString n
  | vNaN => "nan"
  | vNone => "None"

/-- Model of Python repr() as used when a list is interpolated into an
f-string: strings are quoted, other scalars render as with str(). -/
def pyRepr : Value → String
  | vStr s => "\x27" ++ s ++ "\x27"
  | v => pyStr v

/-- Model of Python str.join with separator ", ". -/
def joinComma : List String → String
  | [] => ""
  | [s] => s
  | s :: rest => s ++ ", " ++ joinComma rest

/-- Rendering of a Python list literal inside an f-string. -/
def pyReprList (vs : List Value) : String :=
  "[" ++ joinComma (vs.map pyRepr) ++ "]"

/-- Character classes occurring in the regular expressions of the
source: [0-9], [a-zA-Z0-9], [a-zA-Z0-9\-], [1-2], [0-2] and literals. -/
inductive CClass where
  | digit
  | alnum
  | alnumHyph
  | oneTwo
  | zeroTwo
  | chOf (c : Char)
deriving DecidableEq, Repr

/-- Membership of a character in a character class. -/
def CClass.matchc : CClass → Char → Bool
  | digit, c => c.isDigit
  | alnum, c => c.isAlphanum
  | alnumHyph, c => c.isAlphanum || c == '-'
  | oneTwo, c => c == '1' || c == '2'
  | zeroTwo, c => c == '0' || c == '1' || c == '2'
  | chOf a, c => c == a

/-- Regular-expression syntax trees for the patterns of the source. -/
inductive Regex where
  | fail
  | eps
  | cls (k : CClass)
  | cat (a b : Regex)
  | alt (a b : Regex)
  | star (a : Regex)
deriving DecidableEq, Repr

/-- Whether a regex accepts the empty word. -/
def Regex.nullable : Regex → Bool
  | fail => false
  | eps => true
  | cls _ => false
  | cat a b => a.nullable && b.nullable
  | alt a b => a.nullable || b.nullable
  | star _ => true

/-- Alternation with elimination of the empty language. -/
def salt : Regex → Regex → Regex
  | Regex.fail, r => r
  | r, Regex.fail => r
  | a, b => Regex.alt a b

/-- Concatenation with elimination of the empty language and of
epsilon factors. -/
def scat : Regex → Regex → Regex
  | Regex.fail, _ => Regex.fail
  | _, Regex.fail => Regex.fail
  | Regex.eps, r => r
  | r, Regex.eps => r
  | a, b => Regex.cat a b

/-- Brzozowski derivative of a regex by one character. -/
def Regex.derivc : Regex → Char → Regex
  | fail, _ => fail
  | eps, _ => fail
  | cls k, c => if k.matchc c then eps else fail
  | cat a b, c =>
      if a.nullable then salt (scat (a.derivc c) b) (b.derivc c)
      else scat (a.derivc c) b
  | alt a b, c => salt (a.derivc c) (b.derivc c)
  | star a, c => scat (a.derivc c) (star a)

/-- Whether a regex matches a whole character list. -/
def accept (r : Regex) (cs : List Char) : Bool :=
  (cs.foldl Regex.derivc r).nullable

/-- Full match of a whole Lean string, with no tolerance at the end:
the notion of matching the entire string. -/
def fullMatches (r : Regex) (s : String) : Bool :=
  accept r s.data

/-- Where the dollar anchor of a Python pattern may close a match that
started at position 0: at the very end of the string, or just before a
newline that is the last character. -/
def dollarAt (cs : List Char) (k : Nat) : Bool :=
  k == cs.length || (k + 1 == cs.length && cs.getD k ' ' == '\n')

/-- Model of Python re.match for the dollar-anchored patterns of the
source: some prefix of the string is matched by the pattern body and
the dollar anchor closes the match there. -/
def reMatchStr (r : Regex) (s : String) : Bool :=
  (List.range (s.data.length + 1)).any
    (fun k => accept r (s.data.take k) && dollarAt s.data k)

/-- Optional part, written ? in the source patterns. -/
def rOpt (r : Regex) : Regex := Regex.alt Regex.eps r

/-- Single literal character. -/
def rCh (c : Char) : Regex := Regex.cls (CClass.chOf c)

/-- The pattern fragment [0-9]{1,3}. -/
def octet : Regex :=
  Regex.cat (Regex.cls CClass.digit)
    (rOpt (Regex.cat (Regex.cls CClass.digit) (rOpt (Regex.cls CClass.digit))))

/-- The pattern fragment [0-9]{1,3}\. -/
def octetDot : Regex := Regex.cat octet (rCh '.')

/-- The CIDR suffix alternatives [0-9]|[1-2][0-9]|3[0-2]. -/
def cidrPart : Regex :=
  Regex.alt (Regex.cls CClass.digit)
    (Regex.alt (Regex.cat (Regex.cls CClass.oneTwo) (Regex.cls CClass.digit))
      (Regex.cat (rCh '3') (Regex.cls CClass.zeroTwo)))

/-- Body of the IP address pattern of the source, between the caret
and the dollar: ([0-9]{1,3}\.){3}[0-9]{1,3}(\/(...))? -/
def ipRegexPat : Regex :=
  Regex.cat octetDot (Regex.cat octetDot (Regex.cat octetDot
    (Regex.cat octet (rOpt (Regex.cat (rCh '/') cidrPart)))))

/-- One hostname label: [a-zA-Z0-9]|[a-zA-Z0-9][a-zA-Z0-9\-]*[a-zA-Z0-9]. -/
def hostLabel : Regex :=
  Regex.alt (Regex.cls CClass.alnum)
    (Regex.cat (Regex.cls CClass.alnum)
      (Regex.cat (Regex.star (Regex.cls CClass.alnumHyph)) (Regex.cls CClass.alnum)))

/-- Body of the hostname pattern of the source (identical text is used
for hostname_regex, dns_name_private and dns_name_public):
(label\.)*label. -/
def hostnameRegexPat : Regex :=
  Regex.cat (Regex.star (Regex.cat hostLabel (rCh '.'))) hostLabel

/-- The depends_on entry of a schema rule: trigger column, trigger
value, and whether the dependent field becomes required. -/
structure DependsOn where
  column : String
  value : Value
  required : Bool
deriving DecidableEq, Repr

/-- One entry of VALIDATION_SCHEMA: the optional keys of the Python
rule dictionary. -/
structure Rule where
  required : Bool := false
  allowed_values : Option (List Value) := none
  regex : Option Regex := none
  depends_on : Option DependsOn := none
deriving DecidableEq, Repr

/-- The VALIDATION_SCHEMA dictionary of the source, in its insertion
order, which is also its iteration order. -/
def VALIDATION_SCHEMA : List (String × Rule) := [
  ("lb_name", { required := true }),
  ("namespace", { required := true }),
  ("domains", { required := true }),
  ("lb_type", { required := true,
                allowed_values := some [vStr "https", vStr "https_auto_cert"] }),
  ("create_origin_pool", { required := true }),
  ("enable_tls",
    { depends_on := some ⟨"create_origin_pool", vBool true, true⟩ }),
  ("existing_origin_pool_name",
    { depends_on := some ⟨"create_origin_pool", vBool false, true⟩ }),
  ("origin_pool_name",
    { depends_on := some ⟨"create_origin_pool", vBool true, true⟩ }),
  ("origin_server_type",
    { depends_on := some ⟨"create_origin_pool", vBool true, true⟩ }),
  ("custom_cert_names",
    { depends_on := some ⟨"lb_type", vStr "https", true⟩ }),
  ("csrf_policy_mode",
    { allowed_values := some [vStr "all_domains", vStr "custom_domains", vStr "disabled"],
      depends_on := some ⟨"enable_csrf", vBool true, true⟩ }),
  ("healthcheck_type",
    { allowed_values := some [vStr "tcp", vStr "http"],
      depends_on := some ⟨"enable_healthcheck", vBool true, true⟩ }),
  ("app_firewall_name",
    { depends_on := some ⟨"enable_app_firewall", vBool true, true⟩ }),
  ("waf_namespace",
    { depends_on := some ⟨"create_new_waf", vBool true, true⟩ }),
  ("ip_address_private",
    { regex := some ipRegexPat,
      depends_on := some ⟨"origin_server_type", vStr "private_ip", false⟩ }),
  ("ip_address_public",
    { regex := some ipRegexPat,
      depends_on := some ⟨"origin_server_type", vStr "public_ip", false⟩ }),
  ("dns_name_private", { regex := some hostnameRegexPat }),
  ("dns_name_public", { regex := some hostnameRegexPat })
]

/-- One row of the LoadBalancers sheet: an association list from column
name to cell value.  A column absent from the list models a column that
does not exist in the sheet at all. -/
abbrev Row := List (String × Value)

/-- Model of pandas row.get(column): the cell value when the column
exists, None when it does not. -/
def getCell (row : Row) (c : String) : Value :=
  match List.lookup c row with
  | some v => v
  | none => vNone

/-- The LoadBalancers sheet: its column set and its rows in order. -/
structure DataFrame where
  columns : List String
  rows : List Row

/-- Model of Python str.split on a comma, on character lists. -/
def splitCommaAux : List Char → List Char → List (List Char)
  | [], acc => [acc.reverse]
  | c :: cs, acc =>
      if c = ',' then acc.reverse :: splitCommaAux cs []
      else splitCommaAux cs (c :: acc)

/-- Model of Python str.split with separator comma. -/
def splitComma (s : String) : List String :=
  (splitCommaAux s.data []).map (fun l => String.mk l)

/-- Model of Python str.strip: drop whitespace at both ends. -/
def pyStrip (s : String) : String :=
  String.mk (((s.data.dropWhile Char.isWhitespace).reverse.dropWhile
    Char.isWhitespace).reverse)

/-- Insertion of a string into a sorted list, for the model of Python
sorted on the missing-column names. -/
def insertStr (s : String) : List String → List String
  | [] => [s]
  | t :: ts => if s < t then s :: t :: ts else t :: insertStr s ts

/-- Model of Python sorted on a list of strings. -/
def sortStrings : List String → List String
  | [] => []
  | s :: ss => insertStr s (sortStrings ss)

/-- The common shape of every per-row message of validate_dataframe:
Row {index + 2} ({lb_name}): followed by the specific text. -/
def rowMsg (idx : Nat) (row : Row) (rest : String) : String :=
  "Row " ++ toString (idx + 2) ++ " (\x27" ++ pyStr (getCell row "lb_name")
    ++ "\x27): " ++ rest

/-- Text of the required-field-empty message after the row header. -/
def reqSuffix (c : String) : String :=
  "Required field \x27" ++ c ++ "\x27 is empty."

/-- Text of the conditionally-required message after the row header. -/
def depSuffix (c : String) (d : DependsOn) : String :=
  "\x27" ++ c ++ "\x27 is required because \x27" ++ d.column ++ "\x27 is \x27"
    ++ pyStr d.value ++ "\x27."

/-- Text of the allowed-values message after the row header. -/
def allowedSuffix (c : String) (vs : List Value) : String :=
  "Invalid value for \x27" ++ c ++ "\x27. Allowed: " ++ pyReprList vs ++ "."

/-- Text of the invalid-format message after the row header. -/
def fmtSuffix (c : String) : String :=
  "Invalid format for \x27" ++ c ++ "\x27."

/-- Errors of the allowed_values check on one present cell value. -/
def allowedErrors (idx : Nat) (row : Row) (c : String) (r : Rule) (v : Value) :
    List String :=
  match r.allowed_values with
  | some vs =>
      if !(vs.any (fun a => pyEq v a)) then [rowMsg idx row (allowedSuffix c vs)]
      else []
  | none => []

/-- Errors of the regex check on one present cell value. -/
def regexErrors (idx : Nat) (row : Row) (c : String) (r : Rule) (v : Value) :
    List String :=
  match r.regex with
  | some p =>
      if !(reMatchStr p (pyStr v)) then [rowMsg idx row (fmtSuffix c)]
      else []
  | none => []

/-- Errors contributed by one schema entry on one row: the body of the
inner for loop of validate_dataframe. -/
def fieldErrors (idx : Nat) (row : Row) (column : String) (rules : Rule) :
    List String :=
  let cell_value := getCell row column
  if rules.required && isna cell_value then
    [rowMsg idx row (reqSuffix column)]
  else
    match rules.depends_on with
    | some dependency =>
        if pyEq (getCell row dependency.column) dependency.value then
          if dependency.required && isna cell_value then
            [rowMsg idx row (depSuffix column dependency)]
          else if !(isna cell_value) then
            allowedErrors idx row column rules cell_value
              ++ regexErrors idx row column rules cell_value
          else []
        else []
    | none =>
        if !(isna cell_value) then
          allowedErrors idx row column rules cell_value
            ++ regexErrors idx row column rules cell_value
        else []

/-- The comma-split and stripped entries of a list-valued cell. -/
def listEntries (v : Value) : List String :=
  (splitComma (pyStr v)).map pyStrip

/-- The stripped entries of a list cell that fail the hostname pattern:
the list comprehension of the source, which filters on the stripped
entry and collects the stripped entry. -/
def invalidHostnames (v : Value) : List String :=
  ((splitComma (pyStr v)).filter
    (fun d => !(reMatchStr hostnameRegexPat (pyStrip d)))).map pyStrip

/-- Head of the aggregated domains message, before the entry list. -/
def domainsHead : String :=
  "The \x27domains\x27 field contains invalid hostnames: "

/-- Head of the aggregated csrf_custom_domains message. -/
def csrfHead : String :=
  "The \x27csrf_custom_domains\x27 field contains invalid hostnames: "

/-- The aggregated domains check of validate_dataframe. -/
def domainsErrors (idx : Nat) (row : Row) : List String :=
  if !(isna (getCell row "domains")) then
    let invalid_domains := invalidHostnames (getCell row "domains")
    if !invalid_domains.isEmpty then
      [rowMsg idx row (domainsHead ++ (joinComma invalid_domains ++ "."))]
    else []
  else []

/-- The csrf_custom_domains check of validate_dataframe, guarded by the
truthiness of enable_csrf. -/
def csrfDomainsErrors (idx : Nat) (row : Row) : List String :=
  if pyTruthy (getCell row "enable_csrf")
      && !(isna (getCell row "csrf_custom_domains")) then
    let invalid_csrf_domains := invalidHostnames (getCell row "csrf_custom_domains")
    if !invalid_csrf_domains.isEmpty then
      [rowMsg idx row (csrfHead ++ (joinComma invalid_csrf_domains ++ "."))]
    else []
  else []

/-- Text of the mutual-exclusivity message after the row header. -/
def advertiseBothSuffix : String :=
  "Both \x27advertise_on_public_default_vip\x27 and \x27advertise_custom\x27 cannot be TRUE at the same time."

/-- The mutual-exclusivity check on the two advertisement flags.  The
source compares with the Python identity test, so only the boolean
True triggers it. -/
def advertiseExclusivityErrors (idx : Nat) (row : Row) : List String :=
  if getCell row "advertise_on_public_default_vip" = vBool true
      ∧ getCell row "advertise_custom" = vBool true then
    [rowMsg idx row advertiseBothSuffix]
  else []

/-- The site-locator cross-field check for origin pools on private
server types.  The create_origin_pool flag is compared with the Python
identity test, the origin_server_type membership with equality. -/
def originLocatorErrors (idx : Nat) (row : Row) : List String :=
  if getCell row "create_origin_pool" = vBool true
      ∧ ([vStr "private_ip", vStr "private_name", vStr "k8s_service"].any
          (fun a => pyEq (getCell row "origin_server_type") a) = true) then
    (if isna (getCell row "site_locator_type") then
      [rowMsg idx row "\x27site_locator_type\x27 is required for this origin server type."]
    else if !([vStr "site", vStr "virtual_site"].any
        (fun a => pyEq (getCell row "site_locator_type") a)) then
      [rowMsg idx row "Invalid value for \x27site_locator_type\x27. Must be \x27site\x27 or \x27virtual_site\x27."]
    else [])
    ++ (if isna (getCell row "vsite_or_site_name") then
      [rowMsg idx row "\x27vsite_or_site_name\x27 is required for this origin server type."]
    else [])
  else []

/-- The custom-advertisement cross-field check, triggered by the
Python identity test on advertise_custom. -/
def advertiseCustomErrors (idx : Nat) (row : Row) : List String :=
  if getCell row "advertise_custom" = vBool true then
    (if isna (getCell row "advertise_where") then
      [rowMsg idx row "\x27advertise_where\x27 is required because \x27advertise_custom\x27 is TRUE."]
    else if !([vStr "site", vStr "virtual_site"].any
        (fun a => pyEq (getCell row "advertise_where") a)) then
      [rowMsg idx row "Invalid value for \x27advertise_where\x27. Must be \x27site\x27 or \x27virtual_site\x27."]
    else [])
    ++ (if pyEq (getCell row "advertise_where") (vStr "virtual_site")
          && isna (getCell row "vsite_namespace") then
      [rowMsg idx row "\x27vsite_namespace\x27 is required because \x27advertise_where\x27 is \x27virtual_site\x27."]
    else [])
  else []

/-- All errors of one row, in the emission order of the source: the
schema loop, then domains, then csrf custom domains, then the three
cross-field checks. -/
def rowErrors (idx : Nat) (row : Row) : List String :=
  (VALIDATION_SCHEMA.foldl (fun errs cr => errs ++ fieldErrors idx row cr.1 cr.2) [])
    ++ domainsErrors idx row
    ++ csrfDomainsErrors idx row
    ++ advertiseExclusivityErrors idx row
    ++ originLocatorErrors idx row
    ++ advertiseCustomErrors idx row

/-- The schema columns that the sheet does not have. -/
def missingColumns (df : DataFrame) : List String :=
  (VALIDATION_SCHEMA.map Prod.fst).filter (fun c => !(df.columns.contains c))

/-- The single fatal message for missing schema columns. -/
def missingColumnsMsg (df : DataFrame) : String :=
  "The following expected columns are missing in \x27LoadBalancers\x27 sheet (check for typos): "
    ++ joinComma (sortStrings (missingColumns df))

/-- The validate_dataframe function of the source: the fatal
missing-column pre-check, otherwise the accumulated per-row errors in
row order. -/
def validate_dataframe (df : DataFrame) : List String :=
  if missingColumns df = [] then
    df.rows.enum.foldl (fun errors p => errors ++ rowErrors p.1 p.2) []
  else
    [missingColumnsMsg df]

/-- Whether a present value passes the allowed_values rule of a schema
entry, as Python membership under equality. -/
def allowedOk (r : Rule) (v : Value) : Bool :=
  match r.allowed_values with
  | some vs => vs.any (fun a => pyEq v a)
  | none => true

/-- Whether a present value passes the regex rule of a schema entry
under the re.match semantics of the source. -/
def regexOk (r : Rule) (v : Value) : Bool :=
  match r.regex with
  | some p => reMatchStr p (pyStr v)
  | none => true

/-- All message texts one schema entry can put after the row header. -/
def fieldSuffixSet (c : String) (r : Rule) : List String :=
  [reqSuffix c]
    ++ (match r.depends_on with | some d => [depSuffix c d] | none => [])
    ++ (match r.allowed_values with | some vs => [allowedSuffix c vs] | none => [])
    ++ (if r.regex.isSome then [fmtSuffix c] else [])

/-- The three fixed message texts of the site-locator check. -/
def originLocatorSuffixes : List String :=
  ["\x27site_locator_type\x27 is required for this origin server type.",
   "Invalid value for \x27site_locator_type\x27. Must be \x27site\x27 or \x27virtual_site\x27.",
   "\x27vsite_or_site_name\x27 is required for this origin server type."]

/-- The three fixed message texts of the custom-advertisement check. -/
def advertiseCustomSuffixes : List String :=
  ["\x27advertise_where\x27 is required because \x27advertise_custom\x27 is TRUE.",
   "Invalid value for \x27advertise_where\x27. Must be \x27site\x27 or \x27virtual_site\x27.",
   "\x27vsite_namespace\x27 is required because \x27advertise_where\x27 is \x27virtual_site\x27."]

/-- A row that passes every check of validate_dataframe: every
unconditionally required field is present, every conditionally
required field is present when its dependency is triggered, every
present value passes its allowed_values and regex rules whenever those
checks run, every entry of the domains list (and of the csrf custom
domains list when enable_csrf is truthy) is a wellformed hostname, and
no cross-field check fires. -/
abbrev GoodRow (row : Row) : Prop :=
  (∀ cr ∈ VALIDATION_SCHEMA, cr.2.required = true → isna (getCell row cr.1) = false)
  ∧ (∀ cr ∈ VALIDATION_SCHEMA, ∀ d ∈ (cr.2).depends_on.toList,
      pyEq (getCell row d.column) d.value = true → d.required = true →
      isna (getCell row cr.1) = false)
  ∧ (∀ cr ∈ VALIDATION_SCHEMA,
      ((cr.2).depends_on = none
        ∨ ∃ d ∈ (cr.2).depends_on.toList, pyEq (getCell row d.column) d.value = true) →
      isna (getCell row cr.1) = false →
      allowedOk cr.2 (getCell row cr.1) = true ∧ regexOk cr.2 (getCell row cr.1) = true)
  ∧ (∀ d ∈ listEntries (getCell row "domains"), reMatchStr hostnameRegexPat d = true)
  ∧ (pyTruthy (getCell row "enable_csrf") = true →
      isna (getCell row "csrf_custom_domains") = false →
      ∀ d ∈ listEntries (getCell row "csrf_custom_domains"),
        reMatchStr hostnameRegexPat d = true)
  ∧ ¬(getCell row "advertise_on_public_default_vip" = vBool true
      ∧ getCell row "advertise_custom" = vBool true)
  ∧ (getCell row "create_origin_pool" = vBool true →
      ([vStr "private_ip", vStr "private_name", vStr "k8s_service"].any
        (fun a => pyEq (getCell row "origin_server_type") a) = true) →
      isna (getCell row "site_locator_type") = false
        ∧ ([vStr "site", vStr "virtual_site"].any
            (fun a => pyEq (getCell row "site_locator_type") a) = true)
        ∧ isna (getCell row "vsite_or_site_name") = false)
  ∧ (getCell row "advertise_custom" = vBool true →
      isna (getCell row "advertise_where") = false
        ∧ ([vStr "site", vStr "virtual_site"].any
            (fun a => pyEq (getCell row "advertise_where") a) = true)
        ∧ (pyEq (getCell row "advertise_where") (vStr "virtual_site") = true →
            isna (getCell row "vsite_namespace") = false))

/-- The schema rule of the namespace column. -/
def namespaceRule : Rule := { required := true }

/-- The schema rule of the existing_origin_pool_name column. -/
def eopRule : Rule :=
  { depends_on := some ⟨"create_origin_pool", vBool false, true⟩ }

/-- The schema rule of the dns_name_private column. -/
def dnsNameRule : Rule := { regex := some hostnameRegexPat }

/-- A row that validates cleanly. -/
def goodRow : Row :=
  [("lb_name", vStr "x"), ("namespace", vStr "n"), ("domains", vStr "a"),
   ("lb_type", vStr "https"), ("create_origin_pool", vBool false),
   ("existing_origin_pool_name", vStr "p"), ("custom_cert_names", vStr "c")]

/-- A sheet holding exactly the clean row and all schema columns. -/
def goodDf : DataFrame := ⟨VALIDATION_SCHEMA.map Prod.fst, [goodRow]⟩

/-- The clean row with the domains value replaced by a value that is
no hostname, although domains carries no allowed_values or regex rule
in the schema. -/
def badDomainsRow : Row :=
  [("lb_name", vStr "x"), ("namespace", vStr "n"), ("domains", vStr "bad_host!"),
   ("lb_type", vStr "https"), ("create_origin_pool", vBool false),
   ("existing_origin_pool_name", vStr "p"), ("custom_cert_names", vStr "c")]

/-- A sheet holding exactly the bad-domains row. -/
def badDomainsDf : DataFrame := ⟨VALIDATION_SCHEMA.map Prod.fst, [badDomainsRow]⟩

/-- A row with the namespace cell absent. -/
def c2Row : Row := [("lb_name", vStr "x")]

/-- A sheet holding exactly that row and all schema columns. -/
def c2Df : DataFrame := ⟨VALIDATION_SCHEMA.map Prod.fst, [c2Row]⟩

/-- A row whose create_origin_pool flag is the boolean true, so the
dependency of existing_origin_pool_name (which expects false) does not
trigger although the dependent field is absent. -/
def c3Row : Row :=
  [("lb_name", vStr "x"), ("create_origin_pool", vBool true)]

/-- A row whose dns_name_private cell ends in a newline: re.match with
a dollar anchor accepts it although it is no full match. -/
def c4Row : Row :=
  [("lb_name", vStr "x"), ("dns_name_private", vStr "a\n")]

/-- A row with an ordinary dns_name_private value. -/
def c4wRow : Row :=
  [("lb_name", vStr "x"), ("dns_name_private", vStr "host")]

/-- A sheet whose column set lacks the domains column. -/
def c5Df : DataFrame :=
  ⟨(VALIDATION_SCHEMA.map Prod.fst).filter (fun c => !(c == "domains")),
   [[("lb_name", vStr "x")]]⟩

/-- The domain-list example of the specification. -/
def c6Row : Row :=
  [("lb_name", vStr "x"),
   ("domains", vStr "good.example.com, bad_host!, another.good.org")]

/-- A row with both advertisement flags set to the boolean true. -/
def c7Row : Row :=
  [("lb_name", vStr "x"), ("advertise_on_public_default_vip", vBool true),
   ("advertise_custom", vBool true)]

/-- First ordering-demonstration row: two required fields absent. -/
def c8RowA : Row := [("lb_name", vStr "a")]

/-- Second ordering-demonstration row: a domains error followed by a
cross-field error. -/
def c8RowB : Row :=
  [("lb_name", vStr "b"), ("namespace", vStr "n"), ("domains", vStr "bad!"),
   ("lb_type", vStr "https_auto_cert"), ("create_origin_pool", vBool false),
   ("existing_origin_pool_name", vStr "p"),
   ("advertise_on_public_default_vip", vBool true),
   ("advertise_custom", vBool true), ("advertise_where", vStr "site")]

/-- A two-row sheet for the ordering demonstration. -/
def c8Df : DataFrame := ⟨VALIDATION_SCHEMA.map Prod.fst, [c8RowA, c8RowB]⟩

/-- A row whose lb_name cell itself is empty. -/
def c9Row : Row := [("lb_name", vNaN)]

/-- A row whose boolean-like flag cells all hold the integer 1, with a
private origin server type, a missing site locator, a missing
advertise_where, and an invalid csrf custom domain entry. -/
def c10Row : Row :=
  [("lb_name", vStr "lb10"), ("namespace", vStr "ns"), ("domains", vStr "a"),
   ("lb_type", vStr "https"), ("create_origin_pool", vInt 1),
   ("enable_csrf", vInt 1), ("enable_healthcheck", vInt 1),
   ("enable_app_firewall", vInt 1), ("create_new_waf", vInt 1),
   ("advertise_on_public_default_vip", vInt 1), ("advertise_custom", vInt 1),
   ("origin_server_type", vStr "private_ip"),
   ("csrf_custom_domains", vStr "bad!")]

/-!
Helper lemmas about the structure of validate_dataframe.
-/

theorem foldl_append_eq {α β : Type} (f : α → List β) (l : List α) (init : List β) :
    List.foldl (fun acc x => acc ++ f x) init l = init ++ l.flatMap f := by
  induction l generalizing init with
  | nil => simp
  | cons x xs ih => simp [List.foldl_cons, ih]

theorem rowErrors_eq (idx : Nat) (row : Row) :
    rowErrors idx row =
      (VALIDATION_SCHEMA.flatMap fun cr => fieldErrors idx row cr.1 cr.2)
        ++ domainsErrors idx row
        ++ csrfDomainsErrors idx row
        ++ advertiseExclusivityErrors idx row
        ++ originLocatorErrors idx row
        ++ advertiseCustomErrors idx row := by
  unfold rowErrors
  rw [foldl_append_eq]
  simp

theorem validate_eq_flatMap (df : DataFrame) (h : missingColumns df = []) :
    validate_dataframe df = df.rows.enum.flatMap (fun p => rowErrors p.1 p.2) := by
  unfold validate_dataframe
  rw [if_pos h, foldl_append_eq]
  simp

theorem mem_insertStr {x s : String} {l : List String} :
    x ∈ insertStr s l ↔ x = s ∨ x ∈ l := by
  induction l with
  | nil => simp [insertStr]
  | cons t ts ih =>
      unfold insertStr
      split
      · simp
      · simp [ih]
        tauto

theorem mem_sortStrings {x : String} {l : List String} :
    x ∈ sortStrings l ↔ x ∈ l := by
  induction l with
  | nil => simp [sortStrings]
  | cons s ss ih => simp [sortStrings, mem_insertStr, ih]

/-- C5: when the sheet lacks at least one schema column,
validate_dataframe returns exactly one message, the fatal
missing-columns message, which names every missing schema column, and
no per-row check contributes anything. -/
theorem missing_columns_single_error (df : DataFrame) (h : missingColumns df ≠ []) :
    validate_dataframe df = [missingColumnsMsg df]
    ∧ ∀ c ∈ VALIDATION_SCHEMA.map Prod.fst, c ∉ df.columns →
        c ∈ sortStrings (missingColumns df) := by
  constructor
  · unfold validate_dataframe
    rw [if_neg h]
  · intro c hc hnc
    rw [mem_sortStrings]
    unfold missingColumns
    rw [List.mem_filter]
    refine ⟨hc, ?_⟩
    simp [hnc]

/-- C5 witness: a sheet lacking the domains column yields exactly the
one fatal message, and it names domains. -/
theorem missing_columns_single_error_witness :
    missingColumns c5Df ≠ []
    ∧ validate_dataframe c5Df = [missingColumnsMsg c5Df]
    ∧ validate_dataframe c5Df =
        ["The following expected columns are missing in \x27LoadBalancers\x27 sheet (check for typos): domains"] :=
  ⟨by decide, (missing_columns_single_error c5Df (by decide)).1, by decide⟩

/-- C2: a schema field flagged unconditionally required whose cell is
absent contributes exactly the one required-field-empty message to its
row, independently of every other field of the row, and that message
is in the output of validate_dataframe. -/
theorem required_field_missing (idx : Nat) (row : Row) (c : String) (r : Rule)
    (hmem : (c, r) ∈ VALIDATION_SCHEMA) (hreq : r.required = true)
    (hna : isna (getCell row c) = true) :
    fieldErrors idx row c r = [rowMsg idx row (reqSuffix c)]
    ∧ ∀ df : DataFrame, missingColumns df = [] → (idx, row) ∈ df.rows.enum →
        rowMsg idx row (reqSuffix c) ∈ validate_dataframe df := by
  have h1 : fieldErrors idx row c r = [rowMsg idx row (reqSuffix c)] := by
    unfold fieldErrors
    simp [hreq, hna]
  refine ⟨h1, ?_⟩
  intro df hm hrow
  rw [validate_eq_flatMap df hm]
  rw [List.mem_flatMap]
  refine ⟨(idx, row), hrow, ?_⟩
  rw [rowErrors_eq]
  apply List.mem_append_left
  apply List.mem_append_left
  apply List.mem_append_left
  apply List.mem_append_left
  apply List.mem_append_left
  rw [List.mem_flatMap]
  exact ⟨(c, r), hmem, by simp [h1]⟩

/-- C2 witness: the row with only lb_name present gets exactly the one
required-field-empty message for namespace from the namespace schema
entry, and that message is in the validator output. -/
theorem required_field_missing_witness :
    fieldErrors 0 c2Row "namespace" namespaceRule
        = [rowMsg 0 c2Row (reqSuffix "namespace")]
    ∧ rowMsg 0 c2Row (reqSuffix "namespace") ∈ validate_dataframe c2Df := by
  have h := required_field_missing 0 c2Row "namespace" namespaceRule
    (by decide) (by decide) (by decide)
  exact ⟨h.1, h.2 c2Df (by decide) (by decide)⟩

theorem schema_dep_not_required :
    ∀ cr ∈ VALIDATION_SCHEMA, cr.2.depends_on.isSome = true →
      cr.2.required = false := by decide

/-- C3: a schema field with a depends_on rule whose trigger does not
equal the configured trigger value contributes no error at all for
that field on that row: no conditionally-required error when absent,
and no allowed_values or regex check when present. -/
theorem depends_not_triggered (idx : Nat) (row : Row) (c : String) (r : Rule)
    (d : DependsOn) (hmem : (c, r) ∈ VALIDATION_SCHEMA)
    (hdep : r.depends_on = some d)
    (hne : pyEq (getCell row d.column) d.value = false) :
    fieldErrors idx row c r = [] := by
  have hr : r.required = false :=
    schema_dep_not_required (c, r) hmem (by simp [hdep])
  unfold fieldErrors
  simp [hr, hdep, hne]

/-- C3 witness: with create_origin_pool true, the
existing_origin_pool_name rule (triggered only by false) emits
nothing although its field is absent. -/
theorem depends_not_triggered_witness :
    fieldErrors 0 c3Row "existing_origin_pool_name" eopRule = [] :=
  depends_not_triggered 0 c3Row "existing_origin_pool_name" eopRule
    ⟨"create_origin_pool", vBool false, true⟩ (by decide) rfl (by decide)

/-- C8: with no missing columns, the output of validate_dataframe is
the concatenation, row by row in sheet order, of the schema-loop
errors in schema iteration order, then the domains error, then the
csrf custom-domains error, then the three cross-field checks in
source order. -/
theorem validate_output_order (df : DataFrame) (h : missingColumns df = []) :
    validate_dataframe df = df.rows.enum.flatMap (fun p =>
      (VALIDATION_SCHEMA.flatMap fun cr => fieldErrors p.1 p.2 cr.1 cr.2)
        ++ domainsErrors p.1 p.2
        ++ csrfDomainsErrors p.1 p.2
        ++ advertiseExclusivityErrors p.1 p.2
        ++ originLocatorErrors p.1 p.2
        ++ advertiseCustomErrors p.1 p.2) := by
  rw [validate_eq_flatMap df h]
  simp only [rowErrors_eq]

/-- C8 witness: a two-row sheet shows the contract concretely: the two
schema errors of the first row in schema order, then for the second
row the domains error followed by the cross-field error. -/
theorem validate_output_order_witness :
    missingColumns c8Df = []
    ∧ validate_dataframe c8Df = c8Df.rows.enum.flatMap (fun p =>
        (VALIDATION_SCHEMA.flatMap fun cr => fieldErrors p.1 p.2 cr.1 cr.2)
          ++ domainsErrors p.1 p.2
          ++ csrfDomainsErrors p.1 p.2
          ++ advertiseExclusivityErrors p.1 p.2
          ++ originLocatorErrors p.1 p.2
          ++ advertiseCustomErrors p.1 p.2)
    ∧ validate_dataframe c8Df =
        ["Row 2 (\x27a\x27): Required field \x27namespace\x27 is empty.",
         "Row 2 (\x27a\x27): Required field \x27domains\x27 is empty.",
         "Row 2 (\x27a\x27): Required field \x27lb_type\x27 is empty.",
         "Row 2 (\x27a\x27): Required field \x27create_origin_pool\x27 is empty.",
         "Row 3 (\x27b\x27): The \x27domains\x27 field contains invalid hostnames: bad!.",
         "Row 3 (\x27b\x27): Both \x27advertise_on_public_default_vip\x27 and \x27advertise_custom\x27 cannot be TRUE at the same time."] :=
  ⟨by decide, validate_output_order c8Df (by decide), by decide⟩

theorem allowedErrors_eq_nil (idx : Nat) (row : Row) (c : String) (r : Rule)
    (v : Value) (h : allowedOk r v = true) :
    allowedErrors idx row c r v = [] := by
  unfold allowedErrors
  cases hv : r.allowed_values with
  | none => rfl
  | some vs =>
      have h' : vs.any (fun a => pyEq v a) = true := by
        unfold allowedOk at h
        rw [hv] at h
        exact h
      simp [h']

theorem regexErrors_eq_nil (idx : Nat) (row : Row) (c : String) (r : Rule)
    (v : Value) (h : regexOk r v = true) :
    regexErrors idx row c r v = [] := by
  unfold regexErrors
  cases hv : r.regex with
  | none => rfl
  | some p =>
      have h' : reMatchStr p (pyStr v) = true := by
        unfold regexOk at h
        rw [hv] at h
        exact h
      simp [h']

theorem fieldErrors_eq_nil (idx : Nat) (row : Row) (c : String) (r : Rule)
    (h1 : r.required = true → isna (getCell row c) = false)
    (h2 : ∀ d ∈ r.depends_on.toList,
        pyEq (getCell row d.column) d.value = true → d.required = true →
        isna (getCell row c) = false)
    (h3 : (r.depends_on = none
          ∨ ∃ d ∈ r.depends_on.toList, pyEq (getCell row d.column) d.value = true) →
        isna (getCell row c) = false →
        allowedOk r (getCell row c) = true ∧ regexOk r (getCell row c) = true) :
    fieldErrors idx row c r = [] := by
  simp only [fieldErrors]
  have hnotreq : (r.required && isna (getCell row c)) = false := by
    cases hr : r.required with
    | false => simp
    | true => simp [h1 hr]
  rw [hnotreq]
  simp only [Bool.false_eq_true, if_false]
  cases hdep : r.depends_on with
  | none =>
      cases hna : isna (getCell row c) with
      | true => simp
      | false =>
          obtain ⟨ha, hre⟩ := h3 (Or.inl hdep) hna
          simp [allowedErrors_eq_nil idx row c r _ ha,
                regexErrors_eq_nil idx row c r _ hre]
  | some d =>
      cases htr : pyEq (getCell row d.column) d.value with
      | false => simp [htr]
      | true =>
          cases hna : isna (getCell row c) with
          | true =>
              have : d.required = false := by
                by_contra hdr
                have := h2 d (by simp [hdep]) htr (by simpa using hdr)
                rw [this] at hna
                exact Bool.false_ne_true hna
              simp [this, hna]
          | false =>
              obtain ⟨ha, hre⟩ := h3 (Or.inr ⟨d, by simp [hdep], htr⟩) hna
              simp [hna, allowedErrors_eq_nil idx row c r _ ha,
                    regexErrors_eq_nil idx row c r _ hre]

theorem invalidHostnames_eq_nil (v : Value)
    (h : ∀ d ∈ listEntries v, reMatchStr hostnameRegexPat d = true) :
    invalidHostnames v = [] := by
  unfold invalidHostnames
  have hf : (splitComma (pyStr v)).filter
      (fun d => !(reMatchStr hostnameRegexPat (pyStrip d))) = [] := by
    rw [List.filter_eq_nil_iff]
    intro d hd
    have := h (pyStrip d) (by unfold listEntries; exact List.mem_map.mpr ⟨d, hd, rfl⟩)
    simp [this]
  rw [hf]
  rfl

theorem domainsErrors_eq_nil (idx : Nat) (row : Row)
    (h : ∀ d ∈ listEntries (getCell row "domains"),
        reMatchStr hostnameRegexPat d = true) :
    domainsErrors idx row = [] := by
  unfold domainsErrors
  cases hna : isna (getCell row "domains") with
  | true => simp
  | false => simp [invalidHostnames_eq_nil _ h]

theorem csrfDomainsErrors_eq_nil (idx : Nat) (row : Row)
    (h : pyTruthy (getCell row "enable_csrf") = true →
        isna (getCell row "csrf_custom_domains") = false →
        ∀ d ∈ listEntries (getCell row "csrf_custom_domains"),
          reMatchStr hostnameRegexPat d = true) :
    csrfDomainsErrors idx row = [] := by
  unfold csrfDomainsErrors
  cases ht : pyTruthy (getCell row "enable_csrf") with
  | false => simp
  | true =>
      cases hna : isna (getCell row "csrf_custom_domains") with
      | true => simp
      | false => simp [invalidHostnames_eq_nil _ (h ht hna)]

theorem advertiseExclusivityErrors_eq_nil (idx : Nat) (row : Row)
    (h : ¬(getCell row "advertise_on_public_default_vip" = vBool true
        ∧ getCell row "advertise_custom" = vBool true)) :
    advertiseExclusivityErrors idx row = [] := by
  unfold advertiseExclusivityErrors
  rw [if_neg h]

theorem originLocatorErrors_eq_nil (idx : Nat) (row : Row)
    (h : getCell row "create_origin_pool" = vBool true →
        ([vStr "private_ip", vStr "private_name", vStr "k8s_service"].any
          (fun a => pyEq (getCell row "origin_server_type") a) = true) →
        isna (getCell row "site_locator_type") = false
          ∧ ([vStr "site", vStr "virtual_site"].any
              (fun a => pyEq (getCell row "site_locator_type") a) = true)
          ∧ isna (getCell row "vsite_or_site_name") = false) :
    originLocatorErrors idx row = [] := by
  unfold originLocatorErrors
  split
  · next hc =>
      obtain ⟨hsl, hslv, hvs⟩ := h hc.1 hc.2
      simp [hsl, hslv, hvs]
  · rfl

theorem advertiseCustomErrors_eq_nil (idx : Nat) (row : Row)
    (h : getCell row "advertise_custom" = vBool true →
        isna (getCell row "advertise_where") = false
          ∧ ([vStr "site", vStr "virtual_site"].any
              (fun a => pyEq (getCell row "advertise_where") a) = true)
          ∧ (pyEq (getCell row "advertise_where") (vStr "virtual_site") = true →
              isna (getCell row "vsite_namespace") = false)) :
    advertiseCustomErrors idx row = [] := by
  unfold advertiseCustomErrors
  split
  · next hc =>
      obtain ⟨hw, hwv, hvn⟩ := h hc
      have hsecond : (pyEq (getCell row "advertise_where") (vStr "virtual_site")
          && isna (getCell row "vsite_namespace")) = false := by
        cases hq : pyEq (getCell row "advertise_where") (vStr "virtual_site") with
        | false => simp
        | true => simp [hvn hq]
      simp [hw, hwv, hsecond]
  · rfl

theorem rowErrors_eq_nil (idx : Nat) (row : Row) (hg : GoodRow row) :
    rowErrors idx row = [] := by
  obtain ⟨g1, g2, g3, g4, g5, g6, g7, g8⟩ := hg
  rw [rowErrors_eq]
  have hschema : (VALIDATION_SCHEMA.flatMap fun cr =>
      fieldErrors idx row cr.1 cr.2) = [] := by
    rw [List.flatMap_eq_nil_iff]
    intro cr hcr
    exact fieldErrors_eq_nil idx row cr.1 cr.2 (g1 cr hcr) (g2 cr hcr) (g3 cr hcr)
  rw [hschema, domainsErrors_eq_nil idx row g4, csrfDomainsErrors_eq_nil idx row g5,
      advertiseExclusivityErrors_eq_nil idx row g6,
      originLocatorErrors_eq_nil idx row g7, advertiseCustomErrors_eq_nil idx row g8]
  rfl

/-- C1 (amended): when the sheet has every schema column and every row
is clean, meaning all required and triggered conditionally-required
fields are present, all present values pass the allowed_values and
regex checks that run on them, all entries of the domains list (and of
the csrf custom-domains list when enable_csrf is truthy) are wellformed
hostnames, and no cross-field check fires, then validate_dataframe
returns the empty list. -/
theorem validate_clean_rows (df : DataFrame) (hm : missingColumns df = [])
    (hrows : ∀ p ∈ df.rows.enum, GoodRow p.2) :
    validate_dataframe df = [] := by
  rw [validate_eq_flatMap df hm]
  rw [List.flatMap_eq_nil_iff]
  intro p hp
  exact rowErrors_eq_nil p.1 p.2 (hrows p hp)

/-- C1 witness: a concrete clean sheet validates to the empty list. -/
theorem validate_clean_rows_witness :
    missingColumns goodDf = []
    ∧ (∀ p ∈ goodDf.rows.enum, GoodRow p.2)
    ∧ validate_dataframe goodDf = [] :=
  ⟨by decide, by decide, validate_clean_rows goodDf (by decide) (by decide)⟩

/-- C1 counterexample: a row that satisfies everything the claim
asks, namely all schema columns present, all required fields present,
every present value passing its allowed_values and regex rules, and no
cross-field conflict, still produces an error, because the domains
hostname check is separate from the schema rules.  So the claim as
stated is false. -/
theorem validate_clean_rows_counterexample :
    missingColumns badDomainsDf = []
    ∧ (∀ cr ∈ VALIDATION_SCHEMA, cr.2.required = true →
        isna (getCell badDomainsRow cr.1) = false)
    ∧ (∀ cr ∈ VALIDATION_SCHEMA, ∀ d ∈ (cr.2).depends_on.toList,
        pyEq (getCell badDomainsRow d.column) d.value = true → d.required = true →
        isna (getCell badDomainsRow cr.1) = false)
    ∧ (∀ cr ∈ VALIDATION_SCHEMA, isna (getCell badDomainsRow cr.1) = false →
        allowedOk cr.2 (getCell badDomainsRow cr.1) = true
          ∧ regexOk cr.2 (getCell badDomainsRow cr.1) = true)
    ∧ advertiseExclusivityErrors 0 badDomainsRow = []
    ∧ originLocatorErrors 0 badDomainsRow = []
    ∧ advertiseCustomErrors 0 badDomainsRow = []
    ∧ badDomainsDf.rows = [badDomainsRow]
    ∧ validate_dataframe badDomainsDf =
        ["Row 2 (\x27x\x27): The \x27domains\x27 field contains invalid hostnames: bad_host!."]
    ∧ validate_dataframe badDomainsDf ≠ [] := by decide

theorem rowMsg_inj (idx : Nat) (row : Row) {a b : String}
    (h : rowMsg idx row a = rowMsg idx row b) : a = b := by
  unfold rowMsg at h
  have hd := congrArg String.data h
  rw [String.data_append, String.data_append] at hd
  exact String.ext (List.append_cancel_left hd)

theorem append_ne_of_no_lead (p x t : String)
    (h : p.data.isPrefixOf t.data = false) : p ++ x ≠ t := by
  intro he
  have hd := congrArg String.data he
  rw [String.data_append] at hd
  have hp : p.data.isPrefixOf t.data = true := by
    rw [List.isPrefixOf_iff_prefix, ← hd]
    exact List.prefix_append _ _
  rw [hp] at h
  exact Bool.noConfusion h

theorem mem_allowedErrors (idx : Nat) (row : Row) (c : String) (r : Rule)
    (v : Value) (e : String) (he : e ∈ allowedErrors idx row c r v) :
    ∃ vs, r.allowed_values = some vs ∧ e = rowMsg idx row (allowedSuffix c vs) := by
  unfold allowedErrors at he
  cases hv : r.allowed_values with
  | none => rw [hv] at he; simp at he
  | some vs =>
      rw [hv] at he
      refine ⟨vs, rfl, ?_⟩
      by_cases ha : vs.any (fun a => pyEq v a) = true
      · simp [ha] at he
      · simp [Bool.not_eq_true _ ▸ ha] at he
        exact he

theorem mem_regexErrors (idx : Nat) (row : Row) (c : String) (r : Rule)
    (v : Value) (e : String) (he : e ∈ regexErrors idx row c r v) :
    r.regex.isSome = true ∧ e = rowMsg idx row (fmtSuffix c) := by
  unfold regexErrors at he
  cases hv : r.regex with
  | none => rw [hv] at he; simp at he
  | some p =>
      rw [hv] at he
      refine ⟨rfl, ?_⟩
      by_cases hm : reMatchStr p (pyStr v) = true
      · simp [hm] at he
      · simp [Bool.not_eq_true _ ▸ hm] at he
        exact he

theorem mem_fieldErrors (idx : Nat) (row : Row) (c : String) (r : Rule)
    (e : String) (he : e ∈ fieldErrors idx row c r) :
    ∃ suf ∈ fieldSuffixSet c r, e = rowMsg idx row suf := by
  simp only [fieldErrors] at he
  split at he
  · next =>
      simp at he
      exact ⟨reqSuffix c, by simp [fieldSuffixSet], he⟩
  · next =>
      split at he
      · next d hdep =>
          split at he
          · next =>
              split at he
              · next =>
                  simp at he
                  exact ⟨depSuffix c d, by simp [fieldSuffixSet, hdep], he⟩
              · next =>
                  split at he
                  · next =>
                      rcases List.mem_append.mp he with hl | hr
                      · obtain ⟨vs, hvs, heq⟩ := mem_allowedErrors idx row c r _ e hl
                        exact ⟨allowedSuffix c vs, by simp [fieldSuffixSet, hvs], heq⟩
                      · obtain ⟨hres, heq⟩ := mem_regexErrors idx row c r _ e hr
                        exact ⟨fmtSuffix c, by simp [fieldSuffixSet, hres], heq⟩
                  · next => simp at he
          · next => simp at he
      · next =>
          split at he
          · next =>
              rcases List.mem_append.mp he with hl | hr
              · obtain ⟨vs, hvs, heq⟩ := mem_allowedErrors idx row c r _ e hl
                exact ⟨allowedSuffix c vs, by simp [fieldSuffixSet, hvs], heq⟩
              · obtain ⟨hres, heq⟩ := mem_regexErrors idx row c r _ e hr
                exact ⟨fmtSuffix c, by simp [fieldSuffixSet, hres], heq⟩
          · next => simp at he

theorem mem_domainsErrors (idx : Nat) (row : Row) (e : String)
    (he : e ∈ domainsErrors idx row) :
    ∃ x, e = rowMsg idx row (domainsHead ++ x) := by
  simp only [domainsErrors] at he
  split at he
  · split at he
    · simp at he
      exact ⟨_, he⟩
    · simp at he
  · simp at he

theorem mem_csrfDomainsErrors (idx : Nat) (row : Row) (e : String)
    (he : e ∈ csrfDomainsErrors idx row) :
    ∃ x, e = rowMsg idx row (csrfHead ++ x) := by
  simp only [csrfDomainsErrors] at he
  split at he
  · split at he
    · simp at he
      exact ⟨_, he⟩
    · simp at he
  · simp at he

theorem mem_advertiseExclusivityErrors (idx : Nat) (row : Row) (e : String)
    (he : e ∈ advertiseExclusivityErrors idx row) :
    e = rowMsg idx row advertiseBothSuffix := by
  unfold advertiseExclusivityErrors at he
  split at he
  · simpa using he
  · simp at he

theorem mem_originLocatorErrors (idx : Nat) (row : Row) (e : String)
    (he : e ∈ originLocatorErrors idx row) :
    ∃ suf ∈ originLocatorSuffixes, e = rowMsg idx row suf := by
  unfold originLocatorErrors at he
  split at he
  · rcases List.mem_append.mp he with hl | hr
    · split at hl
      · simp at hl
        exact ⟨_, by simp [originLocatorSuffixes], hl⟩
      · split at hl
        · simp at hl
          exact ⟨_, by simp [originLocatorSuffixes], hl⟩
        · simp at hl
    · split at hr
      · simp at hr
        exact ⟨_, by simp [originLocatorSuffixes], hr⟩
      · simp at hr
  · simp at he

theorem mem_advertiseCustomErrors (idx : Nat) (row : Row) (e : String)
    (he : e ∈ advertiseCustomErrors idx row) :
    ∃ suf ∈ advertiseCustomSuffixes, e = rowMsg idx row suf := by
  unfold advertiseCustomErrors at he
  split at he
  · rcases List.mem_append.mp he with hl | hr
    · split at hl
      · simp at hl
        exact ⟨_, by simp [advertiseCustomSuffixes], hl⟩
      · split at hl
        · simp at hl
          exact ⟨_, by simp [advertiseCustomSuffixes], hl⟩
        · simp at hl
    · split at hr
      · simp at hr
        exact ⟨_, by simp [advertiseCustomSuffixes], hr⟩
      · simp at hr
  · simp at he

theorem fieldSuffix_ne_both :
    ∀ cr ∈ VALIDATION_SCHEMA, ∀ suf ∈ fieldSuffixSet cr.1 cr.2,
      suf ≠ advertiseBothSuffix := by decide

theorem originSuffix_ne_both :
    ∀ suf ∈ originLocatorSuffixes, suf ≠ advertiseBothSuffix := by decide

theorem advCustomSuffix_ne_both :
    ∀ suf ∈ advertiseCustomSuffixes, suf ≠ advertiseBothSuffix := by decide

theorem domainsHead_no_lead :
    domainsHead.data.isPrefixOf advertiseBothSuffix.data = false := by decide

theorem csrfHead_no_lead :
    csrfHead.data.isPrefixOf advertiseBothSuffix.data = false := by decide

/-- C7: a row whose two advertisement flags both hold the boolean true
gets exactly one mutual-exclusivity message, whatever every other
field holds: the check itself emits exactly that message, and the
whole row error list contains it exactly once. -/
theorem advertise_flags_exclusive (idx : Nat) (row : Row)
    (h1 : getCell row "advertise_on_public_default_vip" = vBool true)
    (h2 : getCell row "advertise_custom" = vBool true) :
    advertiseExclusivityErrors idx row = [rowMsg idx row advertiseBothSuffix]
    ∧ (rowErrors idx row).count (rowMsg idx row advertiseBothSuffix) = 1 := by
  have hadv : advertiseExclusivityErrors idx row
      = [rowMsg idx row advertiseBothSuffix] := by
    unfold advertiseExclusivityErrors
    rw [if_pos ⟨h1, h2⟩]
  refine ⟨hadv, ?_⟩
  rw [rowErrors_eq]
  rw [List.count_append, List.count_append, List.count_append,
      List.count_append, List.count_append]
  have hschema : (VALIDATION_SCHEMA.flatMap fun cr =>
      fieldErrors idx row cr.1 cr.2).count (rowMsg idx row advertiseBothSuffix) = 0 := by
    rw [List.count_eq_zero]
    intro hmem
    obtain ⟨cr, hcr, hfe⟩ := List.mem_flatMap.mp hmem
    obtain ⟨suf, hsuf, heq⟩ := mem_fieldErrors idx row cr.1 cr.2 _ hfe
    exact fieldSuffix_ne_both cr hcr suf hsuf (rowMsg_inj idx row heq).symm
  have hdom : (domainsErrors idx row).count (rowMsg idx row advertiseBothSuffix) = 0 := by
    rw [List.count_eq_zero]
    intro hmem
    obtain ⟨x, heq⟩ := mem_domainsErrors idx row _ hmem
    exact append_ne_of_no_lead domainsHead x advertiseBothSuffix domainsHead_no_lead
      (rowMsg_inj idx row heq).symm
  have hcsrf : (csrfDomainsErrors idx row).count (rowMsg idx row advertiseBothSuffix) = 0 := by
    rw [List.count_eq_zero]
    intro hmem
    obtain ⟨x, heq⟩ := mem_csrfDomainsErrors idx row _ hmem
    exact append_ne_of_no_lead csrfHead x advertiseBothSuffix csrfHead_no_lead
      (rowMsg_inj idx row heq).symm
  have horig : (originLocatorErrors idx row).count (rowMsg idx row advertiseBothSuffix) = 0 := by
    rw [List.count_eq_zero]
    intro hmem
    obtain ⟨suf, hsuf, heq⟩ := mem_originLocatorErrors idx row _ hmem
    exact originSuffix_ne_both suf hsuf (rowMsg_inj idx row heq).symm
  have hadvc : (advertiseCustomErrors idx row).count (rowMsg idx row advertiseBothSuffix) = 0 := by
    rw [List.count_eq_zero]
    intro hmem
    obtain ⟨suf, hsuf, heq⟩ := mem_advertiseCustomErrors idx row _ hmem
    exact advCustomSuffix_ne_both suf hsuf (rowMsg_inj idx row heq).symm
  have hone : (advertiseExclusivityErrors idx row).count
      (rowMsg idx row advertiseBothSuffix) = 1 := by
    rw [hadv]
    simp
  rw [hschema, hdom, hcsrf, horig, hadvc, hone]

/-- C7 witness: the concrete row with both flags true, and with
advertise_where absent so another cross-field check also fires, still
counts the mutual-exclusivity message exactly once. -/
theorem advertise_flags_exclusive_witness :
    advertiseExclusivityErrors 0 c7Row = [rowMsg 0 c7Row advertiseBothSuffix]
    ∧ (rowErrors 0 c7Row).count (rowMsg 0 c7Row advertiseBothSuffix) = 1 :=
  advertise_flags_exclusive 0 c7Row (by decide) (by decide)

/-- C9: the validator is a total function in this model, and every
error message of a row embeds the row header built from the row number
and the str() rendering of the lb_name cell, so a row whose lb_name
cell is empty reports itself under the NaN rendering nan. -/
theorem errors_carry_row_identity (idx : Nat) (row : Row) (e : String)
    (he : e ∈ rowErrors idx row) :
    ∃ rest, e = "Row " ++ toString (idx + 2) ++ " (\x27"
      ++ pyStr (getCell row "lb_name") ++ "\x27): " ++ rest := by
  rw [rowErrors_eq] at he
  rcases List.mem_append.mp he with he | hac
  rcases List.mem_append.mp he with he | ho
  rcases List.mem_append.mp he with he | hadv
  rcases List.mem_append.mp he with he | hcs
  rcases List.mem_append.mp he with hs | hd
  · obtain ⟨cr, hcr, hfe⟩ := List.mem_flatMap.mp hs
    obtain ⟨suf, _, heq⟩ := mem_fieldErrors idx row cr.1 cr.2 _ hfe
    exact ⟨suf, heq⟩
  · obtain ⟨x, heq⟩ := mem_domainsErrors idx row _ hd
    exact ⟨domainsHead ++ x, heq⟩
  · obtain ⟨x, heq⟩ := mem_csrfDomainsErrors idx row _ hcs
    exact ⟨csrfHead ++ x, heq⟩
  · exact ⟨advertiseBothSuffix, mem_advertiseExclusivityErrors idx row _ hadv⟩
  · obtain ⟨suf, _, heq⟩ := mem_originLocatorErrors idx row _ ho
    exact ⟨suf, heq⟩
  · obtain ⟨suf, _, heq⟩ := mem_advertiseCustomErrors idx row _ hac
    exact ⟨suf, heq⟩

/-- C9 witness: the row whose lb_name cell is NaN produces an error
whose header renders the identifier as nan. -/
theorem errors_carry_row_identity_witness :
    rowMsg 0 c9Row (reqSuffix "lb_name") ∈ rowErrors 0 c9Row
    ∧ (∃ rest, rowMsg 0 c9Row (reqSuffix "lb_name")
        = "Row " ++ toString (0 + 2) ++ " (\x27"
          ++ pyStr (getCell c9Row "lb_name") ++ "\x27): " ++ rest)
    ∧ pyStr (getCell c9Row "lb_name") = "nan" :=
  ⟨by decide,
   errors_carry_row_identity 0 c9Row (rowMsg 0 c9Row (reqSuffix "lb_name")) (by decide),
   by decide⟩

theorem reMatchStr_iff (r : Regex) (s : String) :
    reMatchStr r s = true ↔
      (accept r s.data = true
        ∨ (s.data.getLast? = some '\n' ∧ accept r s.data.dropLast = true)) := by
  unfold reMatchStr
  rw [List.any_eq_true]
  constructor
  · rintro ⟨k, hk, hcond⟩
    rw [List.mem_range] at hk
    rw [Bool.and_eq_true] at hcond
    obtain ⟨hacc, hdol⟩ := hcond
    unfold dollarAt at hdol
    rw [Bool.or_eq_true] at hdol
    rcases hdol with hlen | hln
    · left
      have hk' : k = s.data.length := by simpa using hlen
      rw [hk', List.take_length] at hacc
      exact hacc
    · right
      rw [Bool.and_eq_true] at hln
      obtain ⟨hk1, hnl⟩ := hln
      have hk1' : k + 1 = s.data.length := by simpa using hk1
      have hnl' : s.data.getD k ' ' = '\n' := by simpa using hnl
      constructor
      · rw [List.getLast?_eq_getElem?]
        have hix : s.data.length - 1 = k := by omega
        rw [hix]
        rw [List.getD_eq_getElem?_getD] at hnl'
        cases hg : s.data[k]? with
        | none =>
            rw [hg] at hnl'
            simp at hnl'
        | some ch =>
            rw [hg] at hnl'
            simp at hnl'
            rw [hnl']
      · rw [List.dropLast_eq_take]
        have hix : s.data.length - 1 = k := by omega
        rw [hix]
        exact hacc
  · rintro (h | ⟨hlast, hacc⟩)
    · refine ⟨s.data.length, by rw [List.mem_range]; omega, ?_⟩
      rw [Bool.and_eq_true]
      refine ⟨by rw [List.take_length]; exact h, ?_⟩
      unfold dollarAt
      simp
    · have hne : s.data ≠ [] := by
        intro hnil
        rw [hnil] at hlast
        simp at hlast
      have hlen : 1 ≤ s.data.length := by
        cases hd : s.data with
        | nil => exact absurd hd hne
        | cons a as => simp
      refine ⟨s.data.length - 1, by rw [List.mem_range]; omega, ?_⟩
      rw [Bool.and_eq_true]
      constructor
      · rw [← List.dropLast_eq_take]
        exact hacc
      · unfold dollarAt
        rw [Bool.or_eq_true]
        right
        rw [Bool.and_eq_true]
        rw [List.getLast?_eq_getElem?] at hlast
        refine ⟨by simp only [beq_iff_eq]; omega, ?_⟩
        rw [List.getD_eq_getElem?_getD, hlast]
        simp

theorem schema_regex_plain :
    ∀ cr ∈ VALIDATION_SCHEMA, cr.2.regex.isSome = true →
      cr.2.required = false ∧ cr.2.allowed_values = none := by decide

/-- C4 (amended): whenever the regex check of a schema field runs,
meaning the field is present and its dependency, if any, is triggered,
the Invalid-format error is emitted exactly when the stringified value
neither matches the whole pattern nor matches it after removal of a
single trailing newline; re.match with the dollar anchor tolerates
that one trailing newline, so this is weaker than a full match of the
entire string. -/
theorem regex_check_matches (idx : Nat) (row : Row) (c : String) (r : Rule)
    (p : Regex) (hmem : (c, r) ∈ VALIDATION_SCHEMA) (hre : r.regex = some p)
    (happ : r.depends_on = none
      ∨ ∃ d ∈ r.depends_on.toList, pyEq (getCell row d.column) d.value = true)
    (hpres : isna (getCell row c) = false) :
    (rowMsg idx row (fmtSuffix c) ∈ fieldErrors idx row c r
      ↔ ¬(fullMatches p (pyStr (getCell row c)) = true
          ∨ ((pyStr (getCell row c)).data.getLast? = some '\n'
              ∧ accept p (pyStr (getCell row c)).data.dropLast = true))) := by
  obtain ⟨hreq, hall⟩ := schema_regex_plain (c, r) hmem (by rw [hre]; rfl)
  have hae : allowedErrors idx row c r (getCell row c) = [] := by
    unfold allowedErrors
    rw [hall]
  have hfe : fieldErrors idx row c r
      = regexErrors idx row c r (getCell row c) := by
    simp only [fieldErrors]
    rw [hreq]
    rcases happ with hnone | ⟨d, hd, htr⟩
    · rw [hnone]
      simp [hpres, hae]
    · have hdep : r.depends_on = some d := by
        cases ho : r.depends_on with
        | none => rw [ho] at hd; simp at hd
        | some d0 =>
            rw [ho] at hd
            simp at hd
            rw [hd]
      rw [hdep]
      simp [htr, hpres, hae]
  rw [hfe]
  unfold regexErrors
  rw [hre]
  cases hrm : reMatchStr p (pyStr (getCell row c)) with
  | true =>
      have hX := (reMatchStr_iff p (pyStr (getCell row c))).mp hrm
      simp only [hrm, Bool.not_true, Bool.false_eq_true, if_false]
      simp only [List.not_mem_nil, false_iff, not_not]
      simpa [fullMatches] using hX
  | false =>
      have hX : ¬(accept p (pyStr (getCell row c)).data = true
          ∨ ((pyStr (getCell row c)).data.getLast? = some '\n'
              ∧ accept p (pyStr (getCell row c)).data.dropLast = true)) := by
        intro hXX
        have := (reMatchStr_iff p (pyStr (getCell row c))).mpr hXX
        rw [hrm] at this
        exact Bool.noConfusion this
      simp only [hrm, Bool.not_false, if_true]
      simp only [List.mem_singleton, true_iff]
      simpa [fullMatches] using hX

/-- C4 witness: the amended equivalence instantiated at a concrete
present dns_name_private value with no dependency. -/
theorem regex_check_matches_witness :
    (rowMsg 0 c4wRow (fmtSuffix "dns_name_private")
        ∈ fieldErrors 0 c4wRow "dns_name_private" dnsNameRule
      ↔ ¬(fullMatches hostnameRegexPat (pyStr (getCell c4wRow "dns_name_private")) = true
          ∨ ((pyStr (getCell c4wRow "dns_name_private")).data.getLast? = some '\n'
              ∧ accept hostnameRegexPat (pyStr (getCell c4wRow "dns_name_private")).data.dropLast = true))) :=
  regex_check_matches 0 c4wRow "dns_name_private" dnsNameRule hostnameRegexPat
    (by decide) rfl (Or.inl rfl) (by decide)

/-- C4 counterexample: a dns_name_private value ending in a newline is
not a full match of the entire stringified value against the pattern,
yet the code emits no Invalid-format error, because re.match with the
dollar anchor accepts a single trailing newline; so an error is not
emitted if and only if the entire string matches. -/
theorem regex_check_matches_counterexample :
    ("dns_name_private", dnsNameRule) ∈ VALIDATION_SCHEMA
    ∧ dnsNameRule.regex = some hostnameRegexPat
    ∧ dnsNameRule.depends_on = none
    ∧ isna (getCell c4Row "dns_name_private") = false
    ∧ fullMatches hostnameRegexPat (pyStr (getCell c4Row "dns_name_private")) = false
    ∧ fieldErrors 0 c4Row "dns_name_private" dnsNameRule = [] := by decide

/-- C6: for a present domains value, the check splits on commas, strips
each entry, emits one aggregated error exactly when some entry fails
the hostname pattern, and the invalid list of that error is exactly
the list of failing entries in order, with no passing entry. -/
theorem domains_aggregated (idx : Nat) (row : Row)
    (h : isna (getCell row "domains") = false) :
    (domainsErrors idx row = [] ↔
      ∀ d ∈ listEntries (getCell row "domains"),
        reMatchStr hostnameRegexPat d = true)
    ∧ invalidHostnames (getCell row "domains")
        = (listEntries (getCell row "domains")).filter
            (fun d => !(reMatchStr hostnameRegexPat d))
    ∧ (invalidHostnames (getCell row "domains") ≠ [] →
        domainsErrors idx row
          = [rowMsg idx row (domainsHead
              ++ (joinComma (invalidHostnames (getCell row "domains")) ++ "."))]) := by
  have hchar : invalidHostnames (getCell row "domains")
      = (listEntries (getCell row "domains")).filter
          (fun d => !(reMatchStr hostnameRegexPat d)) := by
    unfold invalidHostnames listEntries
    rw [List.filter_map]
    rfl
  have hd0 : domainsErrors idx row
      = if !(invalidHostnames (getCell row "domains")).isEmpty then
          [rowMsg idx row (domainsHead
            ++ (joinComma (invalidHostnames (getCell row "domains")) ++ "."))]
        else [] := by
    simp only [domainsErrors]
    rw [h]
    simp
  refine ⟨?_, hchar, ?_⟩
  · rw [hd0]
    by_cases hinv : invalidHostnames (getCell row "domains") = []
    · rw [hinv]
      simp only [List.isEmpty_nil, Bool.not_true, Bool.false_eq_true, if_false]
      constructor
      · intro _ d hd
        rw [hchar] at hinv
        have := List.filter_eq_nil_iff.mp hinv d hd
        simpa using this
      · intro _
        trivial
    · rw [if_pos (by simpa [List.isEmpty_iff] using hinv)]
      constructor
      · intro habs
        exact absurd habs (by simp)
      · intro hall
        exfalso
        apply hinv
        rw [hchar, List.filter_eq_nil_iff]
        intro d hd
        simp [hall d hd]
  · intro hne
    rw [hd0]
    rw [if_pos (by simpa [List.isEmpty_iff] using hne)]

/-- C6 witness: the list value of the specification produces exactly
the one aggregated error naming bad_host! alone. -/
theorem domains_aggregated_witness :
    invalidHostnames (getCell c6Row "domains") = ["bad_host!"]
    ∧ domainsErrors 0 c6Row
        = [rowMsg 0 c6Row (domainsHead
            ++ (joinComma (invalidHostnames (getCell c6Row "domains")) ++ "."))]
    ∧ domainsErrors 0 c6Row
        = ["Row 2 (\x27x\x27): The \x27domains\x27 field contains invalid hostnames: bad_host!."] :=
  ⟨by decide,
   (domains_aggregated 0 c6Row (by decide)).2.2 (by decide),
   by decide⟩

/-- C10: the three cross-field checks compare their flags with the
Python identity test, the schema depends_on triggers compare with
equality, and the csrf list check uses truthiness; on a row whose flag
cells hold the integer 1, every depends_on rule whose trigger value is
the boolean true fires (each emits its conditionally-required error
below), the csrf custom-domains check fires, and none of the three
cross-field checks emits anything, although their trigger conditions
would hold under equality. -/
theorem flag_one_comparison_styles :
    pyEq (vInt 1) (vBool true) = true
    ∧ vInt 1 ≠ vBool true
    ∧ pyTruthy (vInt 1) = true
    ∧ getCell c10Row "advertise_on_public_default_vip" = vInt 1
    ∧ getCell c10Row "advertise_custom" = vInt 1
    ∧ getCell c10Row "create_origin_pool" = vInt 1
    ∧ pyEq (getCell c10Row "origin_server_type") (vStr "private_ip") = true
    ∧ isna (getCell c10Row "site_locator_type") = true
    ∧ isna (getCell c10Row "advertise_where") = true
    ∧ (∀ cr ∈ VALIDATION_SCHEMA, ∀ d ∈ (cr.2).depends_on.toList,
        d.value = vBool true → pyEq (getCell c10Row d.column) d.value = true)
    ∧ advertiseExclusivityErrors 0 c10Row = []
    ∧ originLocatorErrors 0 c10Row = []
    ∧ advertiseCustomErrors 0 c10Row = []
    ∧ rowErrors 0 c10Row =
        ["Row 2 (\x27lb10\x27): \x27enable_tls\x27 is required because \x27create_origin_pool\x27 is \x27True\x27.",
         "Row 2 (\x27lb10\x27): \x27origin_pool_name\x27 is required because \x27create_origin_pool\x27 is \x27True\x27.",
         "Row 2 (\x27lb10\x27): \x27custom_cert_names\x27 is required because \x27lb_type\x27 is \x27https\x27.",
         "Row 2 (\x27lb10\x27): \x27csrf_policy_mode\x27 is required because \x27enable_csrf\x27 is \x27True\x27.",
         "Row 2 (\x27lb10\x27): \x27healthcheck_type\x27 is required because \x27enable_healthcheck\x27 is \x27True\x27.",
         "Row 2 (\x27lb10\x27): \x27app_firewall_name\x27 is required because \x27enable_app_firewall\x27 is \x27True\x27.",
         "Row 2 (\x27lb10\x27): \x27waf_namespace\x27 is required because \x27create_new_waf\x27 is \x27True\x27.",
         "Row 2 (\x27lb10\x27): The \x27csrf_custom_domains\x27 field contains invalid hostnames: bad!."] := by
  decide
